import Mathlib

/-!
Shallow embedding of the MealMatch backend (`src/backend/app.py`) and proofs
about its request handlers.  The relational tables are modelled as Lean lists,
one structure per row type; each Flask handler becomes a pure function from
the database state and the request data to an `Except` result, where an
`Except.error` models a non-200 response with the transaction rolled back
(the handler closes its connection without committing on every error path).
Python-level string and integer coercions that the handlers rely on
(`str.strip`, `str.lower`, `int(...)`, truthiness) are embedded explicitly.
-/

/-- Model of Python's whitespace test used by `str.strip()` (ASCII range). -/
def pyIsSpace (c : Char) : Bool :=
  c = ' ' || c = '\t' || c = '\n' || c = '\r' || c = '\x0b' || c = '\x0c'

/-- Model of Python's `str.lower()` on a single character (ASCII range). -/
def pyCharLower (c : Char) : Char :=
  match c with
  | 'A' => 'a' | 'B' => 'b' | 'C' => 'c' | 'D' => 'd' | 'E' => 'e' | 'F' => 'f'
  | 'G' => 'g' | 'H' => 'h' | 'I' => 'i' | 'J' => 'j' | 'K' => 'k' | 'L' => 'l'
  | 'M' => 'm' | 'N' => 'n' | 'O' => 'o' | 'P' => 'p' | 'Q' => 'q' | 'R' => 'r'
  | 'S' => 's' | 'T' => 't' | 'U' => 'u' | 'V' => 'v' | 'W' => 'w' | 'X' => 'x'
  | 'Y' => 'y' | 'Z' => 'z'
  | c => c

/-- Model of Python's `str.lower()`. -/
def pyLower (s : String) : String :=
  ⟨s.data.map pyCharLower⟩

/-- `str.strip()` on the underlying character list. -/
def pyStripList (l : List Char) : List Char :=
  ((l.dropWhile pyIsSpace).reverse.dropWhile pyIsSpace).reverse

/-- Model of Python's `str.strip()`. -/
def pyStrip (s : String) : String :=
  ⟨pyStripList s.data⟩

/-- A JSON scalar as the handlers receive it from `request.get_json()`. -/
inductive JVal where
  | jnull : JVal
  | jbool : Bool → JVal
  | jint : Int → JVal
  | jstr : String → JVal
deriving DecidableEq

/-- Python truthiness of a JSON scalar (`if v:`). -/
def pyTruthy : JVal → Bool
  | .jnull => false
  | .jbool b => b
  | .jint n => n != 0
  | .jstr s => s != ""

/-- A non-empty all-digit character list read as a decimal number. -/
def listToNat? (l : List Char) : Option Nat :=
  if l.isEmpty then none
  else if l.all Char.isDigit then
    some (l.foldl (fun a c => a * 10 + (c.toNat - 48)) 0)
  else none

/-- Model of Python's `int(string)`: optional surrounding whitespace, optional
sign, then decimal digits; anything else raises `ValueError`. -/
def pyParseInt (s : String) : Option Int :=
  match (pyStrip s).data with
  | '-' :: rest => (listToNat? rest).map (fun n => -(n : Int))
  | '+' :: rest => (listToNat? rest).map (fun n => (n : Int))
  | l => (listToNat? l).map (fun n => (n : Int))

/-- Model of Python's `int(v)` on a JSON scalar; `Except.error` is an uncaught
`ValueError`/`TypeError`. -/
def pyInt : JVal → Except Unit Int
  | .jnull => .error ()
  | .jbool b => .ok (if b then 1 else 0)
  | .jint n => .ok n
  | .jstr s =>
    match pyParseInt s with
    | some n => .ok n
    | none => .error ()

/-- The handler expression `int(v or 1)` (app.py line 250): Python `or`
replaces a falsy value by `1` before the conversion. -/
def pyIntOr1 (v : JVal) : Except Unit Int :=
  if pyTruthy v then pyInt v else .ok 1

/-! ## The relational state -/

/-- A row of the `users` table. -/
structure UserRow where
  id : Nat
  name : String
  email : String
  password_hash : String
  role : String
  photo_url : Option String
deriving DecidableEq

/-- A row of the `restaurants` table. -/
structure Restaurant where
  id : Nat
  owner_id : Nat
  name : String
  area : String
  cuisine : String
  price_level : String
  halal : Bool
  image_url : Option String
deriving DecidableEq

/-- A row of the `menu_items` table (the columns the handlers read). -/
structure MenuItem where
  id : Nat
  restaurant_id : Nat
  name : String
  price : Int
deriving DecidableEq

/-- A row of the `orders` table (timestamp omitted: no claim mentions it). -/
structure OrderRow where
  id : Nat
  user_id : Nat
  status : String
deriving DecidableEq

/-- A row of the `order_items` table. -/
structure OrderItemRow where
  order_id : Nat
  menu_item_id : Nat
  quantity : Int
  price : Int
deriving DecidableEq

/-- The whole database, with the auto-increment counters made explicit. -/
structure DB where
  users : List UserRow
  restaurants : List Restaurant
  menu_items : List MenuItem
  orders : List OrderRow
  order_items : List OrderItemRow
  next_user_id : Nat
  next_restaurant_id : Nat
  next_order_id : Nat
deriving DecidableEq

/-- A non-200 JSON response: HTTP status code and error message. -/
structure ApiErr where
  code : Nat
  msg : String
deriving DecidableEq

/-- Flask's response to an uncaught exception in a handler. -/
def serverError : ApiErr :=
  ⟨500, "Internal Server Error"⟩

instance {ε α : Type} [DecidableEq ε] [DecidableEq α] : DecidableEq (Except ε α) :=
  fun a b =>
  match a, b with
  | .error e1, .error e2 =>
    if h : e1 = e2 then .isTrue (by rw [h])
    else .isFalse (by intro hc; cases hc; exact h rfl)
  | .error _, .ok _ => .isFalse (by intro hc; cases hc)
  | .ok _, .error _ => .isFalse (by intro hc; cases hc)
  | .ok a1, .ok a2 =>
    if h : a1 = a2 then .isTrue (by rw [h])
    else .isFalse (by intro hc; cases hc; exact h rfl)

/-! ## Order creation (`POST /api/orders`, app.py lines 231-262) -/

/-- One element of the request's `items` list; `menu_item_id` is `none` when
the key is absent from the JSON object. -/
structure Line where
  menu_item_id : Option Nat
  quantity : JVal
deriving DecidableEq

/-- `SELECT price FROM menu_items WHERE id=%s` (plus the surrounding columns):
first row whose id equals the requested one, if any. -/
def findMenuItem (db : DB) (mid : Option Nat) : Option MenuItem :=
  match mid with
  | none => none
  | some i => db.menu_items.find? (fun m => m.id == i)

/-- The item loop of the POST branch (app.py lines 249-257): for each line,
`int(quantity or 1)` first (an uncaught `ValueError` aborts the request and
the transaction), then the menu-item lookup; a missing menu item skips the
line with `continue`, otherwise one `order_items` row is staged. -/
def buildRows (db : DB) (oid : Nat) : List Line → Except ApiErr (List OrderItemRow)
  | [] => .ok []
  | it :: rest =>
    match pyIntOr1 it.quantity with
    | .error _ => .error serverError
    | .ok qty =>
      let hd : List OrderItemRow :=
        match findMenuItem db it.menu_item_id with
        | none => []
        | some m => [⟨oid, m.id, qty, m.price⟩]
      match buildRows db oid rest with
      | .error e => .error e
      | .ok rows => .ok (hd ++ rows)

/-- The POST branch of the `orders` handler.  `sess` is `session.get('uid')`;
`items` is the request's `items` list (a missing or null key becomes `[]` via
`data.get('items') or []`).  On success the order row, the staged item rows
and the bumped counter are committed together; every error path commits
nothing. -/
def ordersPost (db : DB) (sess : Option Nat) (restaurant_id : Option Nat)
    (items : List Line) : Except ApiErr (DB × Nat) :=
  match sess with
  | none => .error ⟨401, "Not authenticated"⟩
  | some uid =>
    if items.isEmpty then .error ⟨400, "No items"⟩
    else
      match buildRows db db.next_order_id items with
      | .error e => .error e
      | .ok rows =>
        .ok ({ db with
                orders := db.orders ++ [⟨db.next_order_id, uid, "pending"⟩],
                order_items := db.order_items ++ rows,
                next_order_id := db.next_order_id + 1 },
             db.next_order_id)

/-! ## Restaurant search (`GET /api/restaurants`, app.py lines 188-218) -/

/-- `sub` starts at some position of the first list. -/
def containsSub : List Char → List Char → Bool
  | [], sub => sub.isEmpty
  | c :: rest, sub => sub.isPrefixOf (c :: rest) || containsSub rest sub

/-- `sub` occurs as a contiguous substring of `s` (the SQL pattern
`LIKE '%sub%'`). -/
def strContains (s sub : String) : Bool :=
  containsSub s.data sub.data

/-- Python `v or default` on an optional string: a missing or empty value is
replaced by the default. -/
def pyOrStr (o : Option String) (default : String) : String :=
  match o with
  | none => default
  | some s => if s == "" then default else s

/-- A query parameter switches its WHERE clause on when it is present,
non-empty and not the "All ..." sentinel (`if p and p != sentinel`). -/
def paramActive (o : Option String) (sentinel : String) : Bool :=
  match o with
  | none => false
  | some s => s != "" && s != sentinel

/-- The value of a query parameter (empty when absent). -/
def paramValue (o : Option String) : String :=
  o.getD ""

/-- The WHERE clause assembled by `list_restaurants` (app.py lines 196-213),
evaluated on one row.  `q` is first stripped and lowercased; the cuisine
clause compares the `halal` column instead of `cuisine` when the requested
value is the special token `"Halal"`. -/
def restMatches (q area cuisine price : Option String) (r : Restaurant) : Bool :=
  let qn := pyLower (pyStrip (pyOrStr q ""))
  (qn == "" || strContains (pyLower r.name) qn) &&
  (!paramActive area "All Areas" || r.area == paramValue area) &&
  (!paramActive cuisine "All Cuisines" ||
    (if paramValue cuisine == "Halal" then r.halal else r.cuisine == paramValue cuisine)) &&
  (!paramActive price "All Prices" || r.price_level == paramValue price)

/-- The comparison behind the query's `ORDER BY name`. -/
def nameLe (a b : Restaurant) : Prop :=
  a.name ≤ b.name

instance : DecidableRel nameLe :=
  fun a b => inferInstanceAs (Decidable (a.name ≤ b.name))

instance : IsTotal Restaurant nameLe :=
  ⟨fun a b => le_total a.name b.name⟩

instance : IsTrans Restaurant nameLe :=
  ⟨fun _ _ _ h1 h2 => le_trans h1 h2⟩

/-- `ORDER BY name`: the table rows (which arrive in primary-key order) are
stably sorted by the `name` column. -/
def sortByName (l : List Restaurant) : List Restaurant :=
  l.insertionSort nameLe

/-- The `list_restaurants` handler: filter by the assembled WHERE clause,
then `ORDER BY name`. -/
def list_restaurants (db : DB) (q area cuisine price : Option String) : List Restaurant :=
  sortByName (db.restaurants.filter (restMatches q area cuisine price))

/-! ## Authentication (`/api/auth/register`, `/api/auth/login`) -/

/-- Modelled from the spec: the password hashing primitive (werkzeug's
`generate_password_hash`) is an external collaborator, specified only as a
one-way keyed encoding; it is modelled as an injective tagging of the
password, which the claims never invert. -/
def generate_password_hash (password : String) : String :=
  "pbkdf2:" ++ password

/-- Modelled from the spec: werkzeug's `check_password_hash`, the matching
verifier of `generate_password_hash`. -/
def check_password_hash (hash password : String) : Bool :=
  hash == generate_password_hash password

/-- `SELECT ... FROM users WHERE email=%s` (both stored and queried emails
are lowercased by the handlers before they reach the database). -/
def findUserByEmail (db : DB) (email : String) : Option UserRow :=
  db.users.find? (fun u => u.email == email)

/-- `SELECT ... FROM users WHERE id=%s`. -/
def findUserById (db : DB) (uid : Nat) : Option UserRow :=
  db.users.find? (fun u => u.id == uid)

/-- The `register` handler (app.py lines 46-80).  Form fields are optional
strings (`request.form.get`); `photo_url` is the reference computed for an
uploaded photo, `none` when no photo was sent.  On success the new user row
is committed and the session is bound to the returned fresh id. -/
def register (db : DB) (name email password role : Option String)
    (photo_url : Option String) : Except ApiErr (DB × Nat) :=
  let n := pyStrip (name.getD "")
  let e := pyLower (pyStrip (email.getD ""))
  let p := password.getD ""
  let r := role.getD "customer"
  if n == "" || e == "" || p == "" || (r != "customer" && r != "owner") then
    .error ⟨400, "Invalid data"⟩
  else if (findUserByEmail db e).isSome then
    .error ⟨409, "Email already registered"⟩
  else
    .ok ({ db with
            users := db.users ++
              [⟨db.next_user_id, n, e, generate_password_hash p, r, photo_url⟩],
            next_user_id := db.next_user_id + 1 },
         db.next_user_id)

/-- The `login` handler (app.py lines 83-98): one row lookup by lowercased
email, then hash verification; both failure modes produce the same
response. -/
def login (db : DB) (email password : Option String) : Except ApiErr Nat :=
  let e := pyLower (pyStrip (pyOrStr email ""))
  let p := pyOrStr password ""
  match findUserByEmail db e with
  | none => .error ⟨401, "Invalid email or password"⟩
  | some row =>
    if check_password_hash row.password_hash p then .ok row.id
    else .error ⟨401, "Invalid email or password"⟩

/-! ## Profile update (`PUT /api/profile`, app.py lines 121-155) -/

/-- Python truthiness of an optional form field (`if name:`): false when the
field is absent or the empty string. -/
def pyTruthyStr : Option String → Bool
  | none => false
  | some s => s != ""

/-- The `photo_url` computed for an uploaded file (app.py lines 138-143):
`none` unless a photo with a non-empty filename was sent; `ts` is the
upload timestamp used in the collision-avoiding name. -/
def mkPhotoUrl (ts : Nat) (photo : Option String) : Option String :=
  match photo with
  | none => none
  | some filename =>
    if filename == "" then none
    else some ("/uploads/" ++ toString ts ++ "_" ++ filename)

/-- `if name: cur.execute("UPDATE users SET name=%s WHERE id=%s", ...)`. -/
def nameStep (uid : Nat) (name : Option String) (l : List UserRow) : List UserRow :=
  if pyTruthyStr name then
    l.map (fun u => if u.id == uid then { u with name := name.getD "" } else u)
  else l

/-- `if password: cur.execute("UPDATE users SET password_hash=%s ...", ...)`. -/
def passwordStep (uid : Nat) (password : Option String) (l : List UserRow) : List UserRow :=
  if pyTruthyStr password then
    l.map (fun u =>
      if u.id == uid then
        { u with password_hash := generate_password_hash (password.getD "") }
      else u)
  else l

/-- `if photo_url: cur.execute("UPDATE users SET photo_url=%s ...", ...)`. -/
def photoStep (uid : Nat) (photo_url : Option String) (l : List UserRow) : List UserRow :=
  match photo_url with
  | none => l
  | some url => l.map (fun u => if u.id == uid then { u with photo_url := some url } else u)

/-- The PUT branch of the `profile` handler: three conditional UPDATE
statements (name, password hash, photo reference), each guarded by Python
truthiness of its field, committed together. -/
def profilePut (db : DB) (sess : Option Nat) (name password : Option String)
    (photo : Option String) (ts : Nat) : Except ApiErr (DB × Option String) :=
  match sess with
  | none => .error ⟨401, "Not authenticated"⟩
  | some uid =>
    let photo_url := mkPhotoUrl ts photo
    .ok ({ db with
            users := photoStep uid photo_url
              (passwordStep uid password (nameStep uid name db.users)) },
         photo_url)

/-! ## Adding a restaurant (`POST /api/owner/restaurants`, app.py 158-185) -/

/-- The JSON body of an `addRestaurant` request. -/
structure RestaurantInput where
  name : Option String
  area : Option String
  cuisine : Option String
  price_level : Option String
  halal : JVal
  image_url : Option String
deriving DecidableEq

/-- The `owner_add_restaurant` handler: session check (401), then role check
(403), and only then input parsing and the name validation (400). -/
def owner_add_restaurant (db : DB) (sess : Option Nat) (data : RestaurantInput) :
    Except ApiErr (DB × Nat) :=
  match sess with
  | none => .error ⟨401, "Not authenticated"⟩
  | some uid =>
    match findUserById db uid with
    | none => .error ⟨403, "Owner role required"⟩
    | some row =>
      if row.role != "owner" then .error ⟨403, "Owner role required"⟩
      else
        let name := pyStrip (pyOrStr data.name "")
        let area := pyStrip (pyOrStr data.area "")
        let cuisine := pyStrip (pyOrStr data.cuisine "")
        let price_level := pyStrip (pyOrStr data.price_level "¥")
        let halal := pyTruthy data.halal
        if name == "" then .error ⟨400, "Name required"⟩
        else
          .ok ({ db with
                  restaurants := db.restaurants ++
                    [⟨db.next_restaurant_id, uid, name, area, cuisine,
                      price_level, halal, data.image_url⟩],
                  next_restaurant_id := db.next_restaurant_id + 1 },
               db.next_restaurant_id)

/-! ## An external price change (for the snapshot invariant) -/

/-- Modelled from the spec: no endpoint of this backend updates menu prices
(the menu is read-only in scope), so a later "change to the menu item's
price" is an UPDATE against the `menu_items` table issued outside the
handlers; like the SQL statement it touches no other table. -/
def setMenuPrice (db : DB) (mid : Nat) (p : Int) : DB :=
  { db with
    menu_items := db.menu_items.map
      (fun m => if m.id == mid then { m with price := p } else m) }

/-! ## Derived notions used to state the claims -/

/-- The quantity a line ends up with when its coercion does not raise:
`int(quantity or 1)`. -/
def pyQty (v : JVal) : Int :=
  ((pyIntOr1 v).toOption).getD 1

/-- The order-item row a single request line produces, if any: `none` when
the referenced menu item does not exist (the line is skipped), otherwise
exactly one row carrying the menu item's current price. -/
def lineRow (db : DB) (oid : Nat) (it : Line) : Option OrderItemRow :=
  match findMenuItem db it.menu_item_id with
  | none => none
  | some m => some ⟨oid, m.id, pyQty it.quantity, m.price⟩

/-- Strict name-then-id order: what "ordered by name ascending, ties broken
by id" means for two rows. -/
def nameIdLt (a b : Restaurant) : Prop :=
  a.name < b.name ∨ (a.name = b.name ∧ a.id < b.id)

/-- The three conditional UPDATE statements of the profile handler, applied
to one user row. -/
def applyProfileUpdate (name password photo_url : Option String) (u : UserRow) : UserRow :=
  let u1 := if pyTruthyStr name then { u with name := name.getD "" } else u
  let u2 :=
    if pyTruthyStr password then
      { u1 with password_hash := generate_password_hash (password.getD "") }
    else u1
  match photo_url with
  | none => u2
  | some url => { u2 with photo_url := some url }

/-- A small concrete database used to witness the theorems. -/
def sampleDb : DB :=
  { users := [⟨1, "Alice", "alice@example.com", generate_password_hash "pw1", "customer", none⟩,
              ⟨2, "Bob", "bob@example.com", generate_password_hash "pw2", "owner", none⟩],
    restaurants := [⟨1, 2, "Sakura", "North", "Japanese", "¥¥", true, none⟩,
                    ⟨2, 2, "Anatolia", "South", "Turkish", "¥", true, none⟩,
                    ⟨3, 2, "Bistro", "North", "French", "¥¥¥", false, none⟩],
    menu_items := [⟨1, 1, "Ramen", 900⟩, ⟨2, 1, "Sushi", 1200⟩],
    orders := [],
    order_items := [],
    next_user_id := 3,
    next_restaurant_id := 4,
    next_order_id := 1 }

/-- An empty database (fresh install). -/
def emptyDb : DB :=
  ⟨[], [], [], [], [], 1, 1, 1⟩

/-- Lines used to witness order creation: one existing menu item (id 1,
price 900), one unknown menu item (id 99). -/
def sampleLines : List Line :=
  [⟨some 1, JVal.jint 2⟩, ⟨some 99, JVal.jint 1⟩]

/-- The state after `ordersPost sampleDb (some 1) (some 1) sampleLines`. -/
def sampleDbAfterOrder : DB :=
  { sampleDb with
    orders := [⟨1, 1, "pending"⟩],
    order_items := [⟨1, 1, 2, 900⟩],
    next_order_id := 2 }

/-! ## Helper lemmas -/

theorem buildRows_ok (db : DB) (oid : Nat) (items : List Line)
    (h : ∀ it ∈ items, (pyIntOr1 it.quantity).isOk) :
    buildRows db oid items = .ok (items.filterMap (lineRow db oid)) := by
  induction items with
  | nil => rfl
  | cons it rest ih =>
    have h1 : (pyIntOr1 it.quantity).isOk := h it (List.mem_cons_self it rest)
    obtain ⟨qty, hq⟩ : ∃ q, pyIntOr1 it.quantity = .ok q := by
      cases hpi : pyIntOr1 it.quantity with
      | ok q => exact ⟨q, rfl⟩
      | error e => rw [hpi] at h1; simp [Except.isOk, Except.toBool] at h1
    rw [List.filterMap_cons]
    unfold buildRows
    rw [hq, ih (fun x hx => h x (List.mem_cons_of_mem _ hx))]
    unfold lineRow
    cases hf : findMenuItem db it.menu_item_id with
    | none => simp
    | some m => simp [pyQty, hq, Except.toOption]

theorem buildRows_error (db : DB) (oid : Nat) (items : List Line)
    (h : ∃ it ∈ items, (pyIntOr1 it.quantity).isOk = false) :
    buildRows db oid items = .error serverError := by
  induction items with
  | nil => simp at h
  | cons it rest ih =>
    obtain ⟨x, hx, hbad⟩ := h
    unfold buildRows
    rcases List.mem_cons.mp hx with rfl | hxr
    · cases hpi : pyIntOr1 x.quantity with
      | error e => rfl
      | ok q => rw [hpi] at hbad; simp [Except.isOk, Except.toBool] at hbad
    · cases hpi : pyIntOr1 it.quantity with
      | error e => rfl
      | ok q => rw [ih ⟨x, hxr, hbad⟩]

theorem findMenuItem_mem (db : DB) (mid : Option Nat) (m : MenuItem)
    (h : findMenuItem db mid = some m) : m ∈ db.menu_items := by
  cases mid with
  | none => cases h
  | some i => exact List.mem_of_find?_eq_some h

theorem buildRows_price_from_menu (db : DB) (oid : Nat) (items : List Line)
    (rows : List OrderItemRow) (h : buildRows db oid items = .ok rows) :
    ∀ r ∈ rows, ∃ m ∈ db.menu_items, m.id = r.menu_item_id ∧ m.price = r.price := by
  induction items generalizing rows with
  | nil =>
    unfold buildRows at h
    injection h with h'
    subst h'
    intro r hr
    cases hr
  | cons it rest ih =>
    unfold buildRows at h
    cases hpi : pyIntOr1 it.quantity with
    | error e => rw [hpi] at h; cases h
    | ok q =>
      rw [hpi] at h
      cases hbr : buildRows db oid rest with
      | error e => rw [hbr] at h; cases h
      | ok rows' =>
        rw [hbr] at h
        cases hf : findMenuItem db it.menu_item_id with
        | none =>
          rw [hf] at h
          injection h with h'
          subst h'
          intro r hr
          exact ih rows' hbr r (by simpa using hr)
        | some m =>
          rw [hf] at h
          injection h with h'
          subst h'
          intro r hr
          rcases List.mem_cons.mp (by simpa using hr) with rfl | hr'
          · exact ⟨m, findMenuItem_mem db it.menu_item_id m hf, rfl, rfl⟩
          · exact ih rows' hbr r hr'

/-! ## The claims -/

/-- C4: an authenticated `createOrder` call with an empty items list fails
with the 400 ValidationError; since the handler returns before any INSERT
and the connection is closed without a commit, no order row and no
order-item row is created (in the model: an `Except.error` result carries
no new state). -/
theorem createOrder_empty_items_rejected (db : DB) (uid : Nat) (rid : Option Nat) :
    ordersPost db (some uid) rid [] = .error ⟨400, "No items"⟩ := rfl

/-- C1: for an authenticated `createOrder` call with a non-empty items list
(whose quantities all coerce, cf. C2), the call succeeds and returns the
fresh order id, the order row is created, and the new order-item rows are
exactly one row per line whose menu item exists — carrying that menu item's
price at call time — while every line referencing a missing menu item
contributes nothing and raises nothing. -/
theorem createOrder_skips_missing_menu_items
    (db : DB) (uid : Nat) (rid : Option Nat) (items : List Line)
    (hne : items ≠ [])
    (hq : ∀ it ∈ items, (pyIntOr1 it.quantity).isOk) :
    (∃ db', ordersPost db (some uid) rid items = .ok (db', db.next_order_id) ∧
      db'.orders = db.orders ++ [⟨db.next_order_id, uid, "pending"⟩] ∧
      db'.order_items = db.order_items ++ items.filterMap (lineRow db db.next_order_id)) ∧
    (∀ it ∈ items, findMenuItem db it.menu_item_id = none →
      lineRow db db.next_order_id it = none) ∧
    (∀ it ∈ items, ∀ m, findMenuItem db it.menu_item_id = some m →
      lineRow db db.next_order_id it =
        some ⟨db.next_order_id, m.id, pyQty it.quantity, m.price⟩) := by
  have hemp : items.isEmpty = false := by
    cases items with
    | nil => exact absurd rfl hne
    | cons a l => rfl
  have hmain : ordersPost db (some uid) rid items =
      .ok ({ db with
              orders := db.orders ++ [⟨db.next_order_id, uid, "pending"⟩],
              order_items := db.order_items ++ items.filterMap (lineRow db db.next_order_id),
              next_order_id := db.next_order_id + 1 },
           db.next_order_id) := by
    unfold ordersPost
    rw [hemp]
    simp only [Bool.false_eq_true, if_false]
    rw [buildRows_ok db db.next_order_id items hq]
  refine ⟨⟨_, hmain, rfl, rfl⟩, ?_, ?_⟩
  · intro it _ hfind
    unfold lineRow
    rw [hfind]
  · intro it _ m hfind
    unfold lineRow
    rw [hfind]

/-- C1 witness: in the sample database, ordering
`[{menu_item_id: 1, quantity: 2}, {menu_item_id: 99, quantity: 1}]`
satisfies the hypotheses, and the surviving rows are exactly
`[⟨1, 1, 2, 900⟩]`. -/
theorem createOrder_skips_missing_menu_items_witness :
    (sampleLines ≠ [] ∧ ∀ it ∈ sampleLines, (pyIntOr1 it.quantity).isOk) ∧
    sampleLines.filterMap (lineRow sampleDb 1) = [⟨1, 1, 2, 900⟩] ∧
    ((∃ db', ordersPost sampleDb (some 1) (some 1) sampleLines = .ok (db', 1) ∧
      db'.orders = sampleDb.orders ++ [⟨1, 1, "pending"⟩] ∧
      db'.order_items = sampleDb.order_items ++ sampleLines.filterMap (lineRow sampleDb 1)) ∧
    (∀ it ∈ sampleLines, findMenuItem sampleDb it.menu_item_id = none →
      lineRow sampleDb 1 it = none) ∧
    (∀ it ∈ sampleLines, ∀ m, findMenuItem sampleDb it.menu_item_id = some m →
      lineRow sampleDb 1 it = some ⟨1, m.id, pyQty it.quantity, m.price⟩)) :=
  ⟨⟨by decide, by decide⟩, by decide,
   createOrder_skips_missing_menu_items sampleDb 1 (some 1) sampleLines
     (by decide) (by decide)⟩

/-- C2 counterexample: the claim says a bad quantity never fails the whole
order, but `int(it.get('quantity') or 1)` raises `ValueError` on a truthy
non-numeric quantity.  Ordering one existing menu item with quantity
`"two"` makes the whole request fail with an uncaught exception (500) and
commits nothing, instead of defaulting the quantity to 1. -/
theorem quantity_noncoercible_fails_whole_order :
    ordersPost sampleDb (some 1) (some 1) [⟨some 1, JVal.jstr "two"⟩] =
      .error serverError := by
  decide

/-- C2 as amended: the quantity defaults to 1 exactly when the supplied
value is falsy (missing/null, `0`, the empty string, `false`); a truthy
quantity that `int()` cannot convert (e.g. a non-numeric string) raises an
uncaught `ValueError`, failing the whole request with a 500 and committing
no order and no order items. -/
theorem quantity_defaults_on_falsy_fails_on_noncoercible :
    (∀ v : JVal, pyTruthy v = false → pyIntOr1 v = .ok 1) ∧
    (∀ (db : DB) (uid : Nat) (rid : Option Nat) (items : List Line),
      (∃ it ∈ items, (pyIntOr1 it.quantity).isOk = false) →
      ordersPost db (some uid) rid items = .error serverError) := by
  constructor
  · intro v hv
    unfold pyIntOr1
    rw [hv]
    rfl
  · intro db uid rid items h
    have hemp : items.isEmpty = false := by
      obtain ⟨x, hx, _⟩ := h
      cases items with
      | nil => cases hx
      | cons a l => rfl
    unfold ordersPost
    rw [hemp]
    simp only [Bool.false_eq_true, if_false]
    rw [buildRows_error db db.next_order_id items h]

/-- C2 witness: a null quantity defaults to 1, and a request whose single
line has quantity `"x2"` (truthy, non-numeric) fails with the 500 error. -/
theorem quantity_defaults_on_falsy_fails_on_noncoercible_witness :
    pyIntOr1 JVal.jnull = .ok 1 ∧
    ordersPost sampleDb (some 2) (some 1) [⟨some 2, JVal.jstr "x2"⟩] =
      .error serverError :=
  ⟨quantity_defaults_on_falsy_fails_on_noncoercible.1 JVal.jnull rfl,
   quantity_defaults_on_falsy_fails_on_noncoercible.2 sampleDb 2 (some 1)
     [⟨some 2, JVal.jstr "x2"⟩] ⟨⟨some 2, JVal.jstr "x2"⟩, by decide, by decide⟩⟩

/-- C5: every order-item row created by `createOrder` carries a copy of some
menu item's price as it was at call time (the row's `price` column equals
the price the referenced menu item had in the pre-call state), and a later
change to a menu item's price — an UPDATE against `menu_items` — leaves
every `order_items` row untouched. -/
theorem orderItem_price_is_snapshot
    (db : DB) (uid : Nat) (rid : Option Nat) (items : List Line)
    (db' : DB) (oid : Nat)
    (h : ordersPost db (some uid) rid items = .ok (db', oid)) :
    (∃ newRows, db'.order_items = db.order_items ++ newRows ∧
      ∀ r ∈ newRows, ∃ m ∈ db.menu_items, m.id = r.menu_item_id ∧ m.price = r.price) ∧
    (∀ mid p, (setMenuPrice db' mid p).order_items = db'.order_items) := by
  cases hemp : items.isEmpty with
  | true =>
    simp only [ordersPost, hemp, if_true] at h
    cases h
  | false =>
    simp only [ordersPost, hemp, Bool.false_eq_true, if_false] at h
    cases hbr : buildRows db db.next_order_id items with
    | error e => rw [hbr] at h; cases h
    | ok rows =>
      rw [hbr] at h
      injection h with h'
      have hdb : db' = { db with
          orders := db.orders ++ [⟨db.next_order_id, uid, "pending"⟩],
          order_items := db.order_items ++ rows,
          next_order_id := db.next_order_id + 1 } :=
        (congrArg Prod.fst h').symm
      subst hdb
      exact ⟨⟨rows, rfl, buildRows_price_from_menu db db.next_order_id items rows hbr⟩,
             fun mid p => rfl⟩

/-- C5 witness: after placing the sample order, the captured row is
`⟨1, 1, 2, 900⟩`; doubling the menu price of item 1 afterwards leaves it
unchanged. -/
theorem orderItem_price_is_snapshot_witness :
    ordersPost sampleDb (some 1) (some 1) sampleLines = .ok (sampleDbAfterOrder, 1) ∧
    ((∃ newRows, sampleDbAfterOrder.order_items = sampleDb.order_items ++ newRows ∧
      ∀ r ∈ newRows, ∃ m ∈ sampleDb.menu_items, m.id = r.menu_item_id ∧ m.price = r.price) ∧
    (∀ mid p, (setMenuPrice sampleDbAfterOrder mid p).order_items =
      sampleDbAfterOrder.order_items)) :=
  ⟨by decide,
   orderItem_price_is_snapshot sampleDb 1 (some 1) sampleLines sampleDbAfterOrder 1
     (by decide)⟩

/-- C6: whenever `login` fails — no user row with the given (lowercased)
email, or hash verification failure — the response is the one generic
error, status 401 with message "Invalid email or password", so the two
causes are indistinguishable to the caller. -/
theorem login_failures_indistinguishable
    (db : DB) (email password : Option String) (err : ApiErr)
    (h : login db email password = .error err) :
    err = ⟨401, "Invalid email or password"⟩ := by
  simp only [login] at h
  cases hf : findUserByEmail db (pyLower (pyStrip (pyOrStr email ""))) with
  | none =>
    rw [hf] at h
    injection h with h'
    exact h'.symm
  | some row =>
    rw [hf] at h
    cases hc : check_password_hash row.password_hash (pyOrStr password "") with
    | true =>
      simp only [hc, if_true] at h
      exact Except.noConfusion h
    | false =>
      simp only [hc, Bool.false_eq_true, if_false] at h
      injection h with h'
      exact h'.symm

/-- C6 witness: an unknown email and a wrong password for an existing user
both fail, and the theorem pins both errors to the same generic value. -/
theorem login_failures_indistinguishable_witness :
    login sampleDb (some "ghost@example.com") (some "pw") =
      .error ⟨401, "Invalid email or password"⟩ ∧
    login sampleDb (some "alice@example.com") (some "wrong") =
      .error ⟨401, "Invalid email or password"⟩ ∧
    (⟨401, "Invalid email or password"⟩ : ApiErr) = ⟨401, "Invalid email or password"⟩ :=
  ⟨by decide, by decide,
   login_failures_indistinguishable sampleDb (some "alice@example.com") (some "wrong")
     ⟨401, "Invalid email or password"⟩ (by decide)⟩

/-- C9: `owner_add_restaurant` evaluates the role check before any input
validation: an authenticated caller whose user row does not have role
`owner` gets the 403 response for every request body, including one with an
empty name, so such a request never reaches the 400 ValidationError. -/
theorem addRestaurant_checks_role_before_validation
    (db : DB) (uid : Nat) (u : UserRow) (data : RestaurantInput)
    (hu : findUserById db uid = some u) (hrole : u.role ≠ "owner") :
    owner_add_restaurant db (some uid) data = .error ⟨403, "Owner role required"⟩ := by
  have hb : (u.role != "owner") = true := bne_iff_ne.mpr hrole
  simp only [owner_add_restaurant, hu, hb, if_true]

/-- C9 witness: Alice (role `customer`) submitting an explicitly empty name
still receives the 403, not the 400. -/
theorem addRestaurant_checks_role_before_validation_witness :
    findUserById sampleDb 1 =
      some ⟨1, "Alice", "alice@example.com", generate_password_hash "pw1", "customer", none⟩ ∧
    ("customer" : String) ≠ "owner" ∧
    owner_add_restaurant sampleDb (some 1) ⟨some "", none, none, none, JVal.jnull, none⟩ =
      .error ⟨403, "Owner role required"⟩ :=
  ⟨by decide, by decide,
   addRestaurant_checks_role_before_validation sampleDb 1
     ⟨1, "Alice", "alice@example.com", generate_password_hash "pw1", "customer", none⟩
     ⟨some "", none, none, none, JVal.jnull, none⟩ (by decide) (by decide)⟩



/-- The image of one user row under the three conditional profile UPDATEs. -/
def profileImage (uid : Nat) (nm pw phu : Option String) (u : UserRow) : UserRow :=
  let u1 :=
    if pyTruthyStr nm then
      (if u.id == uid then { u with name := nm.getD "" } else u)
    else u
  let u2 :=
    if pyTruthyStr pw then
      (if u1.id == uid then
        { u1 with password_hash := generate_password_hash (pw.getD "") }
      else u1)
    else u1
  match phu with
  | none => u2
  | some url => if u2.id == uid then { u2 with photo_url := some url } else u2

theorem nameStep_mem (uid : Nat) (nm : Option String) (l : List UserRow)
    (u : UserRow) (hu : u ∈ l) :
    (if pyTruthyStr nm then (if u.id == uid then { u with name := nm.getD "" } else u) else u)
      ∈ nameStep uid nm l := by
  unfold nameStep
  cases h : pyTruthyStr nm
  · simpa [h] using hu
  · simpa [h] using List.mem_map_of_mem _ hu

theorem passwordStep_mem (uid : Nat) (pw : Option String) (l : List UserRow)
    (v : UserRow) (hv : v ∈ l) :
    (if pyTruthyStr pw then
       (if v.id == uid then
         { v with password_hash := generate_password_hash (pw.getD "") }
       else v)
     else v) ∈ passwordStep uid pw l := by
  unfold passwordStep
  cases h : pyTruthyStr pw
  · simpa [h] using hv
  · simpa [h] using List.mem_map_of_mem _ hv

theorem photoStep_mem (uid : Nat) (phu : Option String) (l : List UserRow)
    (v : UserRow) (hv : v ∈ l) :
    (match phu with
     | none => v
     | some url => if v.id == uid then { v with photo_url := some url } else v)
      ∈ photoStep uid phu l := by
  unfold photoStep
  cases phu
  · exact hv
  · exact List.mem_map_of_mem _ hv

theorem profileImage_mem (uid : Nat) (nm pw phu : Option String)
    (l : List UserRow) (u : UserRow) (hu : u ∈ l) :
    profileImage uid nm pw phu u
      ∈ photoStep uid phu (passwordStep uid pw (nameStep uid nm l)) :=
  photoStep_mem uid phu _ _ (passwordStep_mem uid pw _ _ (nameStep_mem uid nm l u hu))

theorem profileImage_id (uid : Nat) (nm pw phu : Option String) (u : UserRow) :
    (profileImage uid nm pw phu u).id = u.id := by
  unfold profileImage
  cases hn : pyTruthyStr nm <;> cases hp : pyTruthyStr pw <;> cases phu <;>
    by_cases hid : u.id == uid <;> simp [hid]

theorem profileImage_email (uid : Nat) (nm pw phu : Option String) (u : UserRow) :
    (profileImage uid nm pw phu u).email = u.email := by
  unfold profileImage
  cases hn : pyTruthyStr nm <;> cases hp : pyTruthyStr pw <;> cases phu <;>
    by_cases hid : u.id == uid <;> simp [hid]

theorem profileImage_role (uid : Nat) (nm pw phu : Option String) (u : UserRow) :
    (profileImage uid nm pw phu u).role = u.role := by
  unfold profileImage
  cases hn : pyTruthyStr nm <;> cases hp : pyTruthyStr pw <;> cases phu <;>
    by_cases hid : u.id == uid <;> simp [hid]

theorem profileImage_name (uid : Nat) (nm pw phu : Option String) (u : UserRow)
    (h : pyTruthyStr nm = false) :
    (profileImage uid nm pw phu u).name = u.name := by
  unfold profileImage
  cases hp : pyTruthyStr pw <;> cases phu <;>
    by_cases hid : u.id == uid <;> simp [h, hid]

theorem profileImage_hash (uid : Nat) (nm pw phu : Option String) (u : UserRow)
    (h : pyTruthyStr pw = false) :
    (profileImage uid nm pw phu u).password_hash = u.password_hash := by
  unfold profileImage
  cases hn : pyTruthyStr nm <;> cases phu <;>
    by_cases hid : u.id == uid <;> simp [h, hid]

theorem profileImage_photo (uid : Nat) (nm pw : Option String) (u : UserRow) :
    (profileImage uid nm pw none u).photo_url = u.photo_url := by
  unfold profileImage
  cases hn : pyTruthyStr nm <;> cases hp : pyTruthyStr pw <;>
    by_cases hid : u.id == uid <;> simp [hid]

theorem profileImage_other (uid : Nat) (nm pw phu : Option String) (u : UserRow)
    (h : u.id ≠ uid) :
    profileImage uid nm pw phu u = u := by
  have hid : (u.id == uid) = false := by simpa using h
  unfold profileImage
  cases hn : pyTruthyStr nm <;> cases hp : pyTruthyStr pw <;> cases phu <;> simp [hid]

theorem pyTruthyStr_of_empty (o : Option String) (h : o = none ∨ o = some "") :
    pyTruthyStr o = false := by
  rcases h with rfl | rfl <;> rfl

theorem mkPhotoUrl_of_empty (ts : Nat) (o : Option String) (h : o = none ∨ o = some "") :
    mkPhotoUrl ts o = none := by
  rcases h with rfl | rfl <;> rfl

/-- C10: in the PUT profile handler a field supplied as the empty string
behaves like an absent field (`if name:` / `if password:` are false), so it
leaves the stored name / password hash unchanged; moreover the update only
ever touches the name, password hash and photo columns of the caller's own
row: email and role are never changed, rows of other users are untouched,
and an absent or empty photo leaves the photo reference unchanged. -/
theorem updateProfile_ignores_empty_fields
    (db : DB) (uid : Nat) (nm pw ph : Option String) (ts : Nat)
    (db' : DB) (ret : Option String)
    (h : profilePut db (some uid) nm pw ph ts = .ok (db', ret)) :
    ∀ u ∈ db.users, ∃ u' ∈ db'.users,
      u'.id = u.id ∧ u'.email = u.email ∧ u'.role = u.role ∧
      ((nm = none ∨ nm = some "") → u'.name = u.name) ∧
      ((pw = none ∨ pw = some "") → u'.password_hash = u.password_hash) ∧
      ((ph = none ∨ ph = some "") → u'.photo_url = u.photo_url) ∧
      (u.id ≠ uid → u' = u) := by
  have husers : db'.users =
      photoStep uid (mkPhotoUrl ts ph) (passwordStep uid pw (nameStep uid nm db.users)) := by
    simp only [profilePut] at h
    injection h with h'
    exact congrArg DB.users (congrArg Prod.fst h').symm
  intro u hu
  refine ⟨profileImage uid nm pw (mkPhotoUrl ts ph) u, ?_, profileImage_id uid nm pw _ u,
          profileImage_email uid nm pw _ u, profileImage_role uid nm pw _ u, ?_, ?_, ?_, ?_⟩
  · rw [husers]
    exact profileImage_mem uid nm pw (mkPhotoUrl ts ph) db.users u hu
  · intro hempty
    exact profileImage_name uid nm pw _ u (pyTruthyStr_of_empty nm hempty)
  · intro hempty
    exact profileImage_hash uid nm pw _ u (pyTruthyStr_of_empty pw hempty)
  · intro hempty
    rw [mkPhotoUrl_of_empty ts ph hempty]
    exact profileImage_photo uid nm pw u
  · intro hne
    exact profileImage_other uid nm pw _ u hne

/-- C10 witness: Alice sends `name=""`, `password=""` and no photo; the call
succeeds, the stored rows are unchanged, and the theorem's conclusions hold
for every user row. -/
theorem updateProfile_ignores_empty_fields_witness :
    profilePut sampleDb (some 1) (some "") (some "") none 0 = .ok (sampleDb, none) ∧
    (∀ u ∈ sampleDb.users, ∃ u' ∈ sampleDb.users,
      u'.id = u.id ∧ u'.email = u.email ∧ u'.role = u.role ∧
      ((some "" = (none : Option String) ∨ (some "" : Option String) = some "") → u'.name = u.name) ∧
      ((some "" = (none : Option String) ∨ (some "" : Option String) = some "") → u'.password_hash = u.password_hash) ∧
      (((none : Option String) = none ∨ (none : Option String) = some "") → u'.photo_url = u.photo_url) ∧
      (u.id ≠ 1 → u' = u)) :=
  ⟨by decide,
   updateProfile_ignores_empty_fields sampleDb 1 (some "") (some "") none 0 sampleDb none
     (by decide)⟩

theorem restMatches_halal (r : Restaurant) :
    restMatches none none (some "Halal") none r = r.halal := by
  simp [restMatches, paramActive, paramValue, pyOrStr, pyLower, pyStrip, pyStripList]

theorem restMatches_cuisine (r : Restaurant) (c : String)
    (h1 : c ≠ "") (h2 : c ≠ "All Cuisines") (h3 : c ≠ "Halal") :
    restMatches none none (some c) none r = (r.cuisine == c) := by
  have b1 : (c != "") = true := bne_iff_ne.mpr h1
  have b2 : (c != "All Cuisines") = true := bne_iff_ne.mpr h2
  have b3 : (c == "Halal") = false := beq_eq_false_iff_ne.mpr h3
  simp [restMatches, paramActive, paramValue, pyOrStr, pyLower, pyStrip, pyStripList,
        b1, b2, b3]

theorem mem_list_restaurants (db : DB) (r : Restaurant) (q area cuisine price : Option String) :
    r ∈ list_restaurants db q area cuisine price ↔
      r ∈ db.restaurants ∧ restMatches q area cuisine price r = true := by
  unfold list_restaurants sortByName
  rw [List.mem_insertionSort, List.mem_filter]

/-- C3: with the cuisine filter set to the special token `"Halal"` (and the
other filters absent), `list_restaurants` returns exactly the restaurants
whose `halal` flag is true, regardless of their `cuisine` column; any other
non-sentinel cuisine value filters by exact match on the `cuisine` column. -/
theorem halal_cuisine_filter (db : DB) (r : Restaurant) :
    (r ∈ list_restaurants db none none (some "Halal") none ↔
      r ∈ db.restaurants ∧ r.halal = true) ∧
    (∀ c : String, c ≠ "" → c ≠ "All Cuisines" → c ≠ "Halal" →
      (r ∈ list_restaurants db none none (some c) none ↔
        r ∈ db.restaurants ∧ r.cuisine = c)) := by
  constructor
  · rw [mem_list_restaurants, restMatches_halal]
  · intro c h1 h2 h3
    rw [mem_list_restaurants, restMatches_cuisine r c h1 h2 h3]
    simp [beq_iff_eq]

/-- C3 witness: in the sample database the Japanese restaurant `Sakura` has
`halal = true`, so it matches the `"Halal"` filter even though its cuisine
is not the literal string `"Halal"`, and the literal filter `"Turkish"`
matches by the cuisine column. -/
theorem halal_cuisine_filter_witness :
    ((⟨1, 2, "Sakura", "North", "Japanese", "¥¥", true, none⟩ : Restaurant) ∈
        list_restaurants sampleDb none none (some "Halal") none ↔
      (⟨1, 2, "Sakura", "North", "Japanese", "¥¥", true, none⟩ : Restaurant) ∈
        sampleDb.restaurants ∧ true = true) ∧
    (("Turkish" : String) ≠ "" ∧ ("Turkish" : String) ≠ "All Cuisines" ∧
      ("Turkish" : String) ≠ "Halal") ∧
    ((⟨2, 2, "Anatolia", "South", "Turkish", "¥", true, none⟩ : Restaurant) ∈
        list_restaurants sampleDb none none (some "Turkish") none ↔
      (⟨2, 2, "Anatolia", "South", "Turkish", "¥", true, none⟩ : Restaurant) ∈
        sampleDb.restaurants ∧ "Turkish" = "Turkish") :=
  ⟨(halal_cuisine_filter sampleDb ⟨1, 2, "Sakura", "North", "Japanese", "¥¥", true, none⟩).1,
   ⟨by decide, by decide, by decide⟩,
   (halal_cuisine_filter sampleDb ⟨2, 2, "Anatolia", "South", "Turkish", "¥", true, none⟩).2
     "Turkish" (by decide) (by decide) (by decide)⟩

theorem orderedInsert_lex (a : Restaurant) (l : List Restaurant)
    (hl : l.Pairwise nameIdLt) (ha : ∀ b ∈ l, a.id < b.id) :
    (List.orderedInsert nameLe a l).Pairwise nameIdLt := by
  induction l with
  | nil =>
    simp [List.orderedInsert]
  | cons b t ih =>
    rw [List.orderedInsert]
    by_cases hab : nameLe a b
    · rw [if_pos hab]
      have hle : ∀ c ∈ b :: t, a.name ≤ c.name := by
        intro c hc
        rcases List.mem_cons.mp hc with rfl | hct
        · exact hab
        · have hbc : nameIdLt b c := (List.pairwise_cons.mp hl).1 c hct
          have : b.name ≤ c.name := by
            rcases hbc with h | ⟨h, _⟩
            · exact le_of_lt h
            · exact le_of_eq h
          exact le_trans hab this
      exact List.pairwise_cons.mpr
        ⟨fun c hc => by
          rcases lt_or_eq_of_le (hle c hc) with h | h
          · exact Or.inl h
          · exact Or.inr ⟨h, ha c hc⟩,
         hl⟩
    · rw [if_neg hab]
      refine List.pairwise_cons.mpr ⟨?_, ?_⟩
      · intro c hc
        rcases (List.mem_orderedInsert nameLe).mp hc with rfl | hct
        · exact Or.inl (lt_of_not_le hab)
        · exact (List.pairwise_cons.mp hl).1 c hct
      · exact ih (List.pairwise_cons.mp hl).2
          (fun c hc => ha c (List.mem_cons_of_mem b hc))

theorem insertionSort_lex (l : List Restaurant)
    (h : l.Pairwise (fun a b => a.id < b.id)) :
    (l.insertionSort nameLe).Pairwise nameIdLt := by
  induction l with
  | nil => exact List.Pairwise.nil
  | cons a t ih =>
    rw [List.insertionSort]
    obtain ⟨ha, ht⟩ := List.pairwise_cons.mp h
    apply orderedInsert_lex
    · exact ih ht
    · intro b hb
      exact ha b ((List.mem_insertionSort nameLe).mp hb)

/-- C7: when the `restaurants` table rows are in primary-key order (ids
strictly increasing, as successive inserts produce), `list_restaurants`
returns its results sorted by name ascending, with rows of equal name in
ascending id order — the stable tie-break by id. -/
theorem listRestaurants_sorted_by_name_then_id
    (db : DB) (q area cuisine price : Option String)
    (h : db.restaurants.Pairwise (fun a b => a.id < b.id)) :
    (list_restaurants db q area cuisine price).Pairwise nameIdLt := by
  unfold list_restaurants sortByName
  exact insertionSort_lex _ (List.Pairwise.sublist (List.filter_sublist _) h)

/-- C7 witness: the sample table is in id order, and an unfiltered listing
is name-sorted with ties broken by id. -/
theorem listRestaurants_sorted_by_name_then_id_witness :
    sampleDb.restaurants.Pairwise (fun a b => a.id < b.id) ∧
    (list_restaurants sampleDb none none none none).Pairwise nameIdLt :=
  ⟨by decide,
   listRestaurants_sorted_by_name_then_id sampleDb none none none none (by decide)⟩

theorem pyIsSpace_pyCharLower (c : Char) : pyIsSpace (pyCharLower c) = pyIsSpace c := by
  unfold pyCharLower
  split <;> rfl

theorem pyStripList_map (l : List Char) :
    pyStripList (l.map pyCharLower) = (pyStripList l).map pyCharLower := by
  have hcomp : (pyIsSpace ∘ pyCharLower) = pyIsSpace :=
    funext (fun c => pyIsSpace_pyCharLower c)
  unfold pyStripList
  rw [List.dropWhile_map, hcomp, ← List.map_reverse, List.dropWhile_map, hcomp,
      ← List.map_reverse]

theorem pyLower_pyStrip (s : String) : pyLower (pyStrip s) = pyStrip (pyLower s) :=
  congrArg String.mk (pyStripList_map s.data).symm

theorem register_ok_email (db : DB) (n e p r ph : Option String) (db' : DB) (uid : Nat)
    (h : register db n e p r ph = .ok (db', uid)) :
    pyLower (pyStrip (e.getD "")) ≠ "" ∧
    db'.users = db.users ++
      [⟨db.next_user_id, pyStrip (n.getD ""), pyLower (pyStrip (e.getD "")),
        generate_password_hash (p.getD ""), r.getD "customer", ph⟩] := by
  simp only [register] at h
  split at h
  · exact absurd h (by simp)
  · split at h
    · exact absurd h (by simp)
    · rename_i hval hdup
      injection h with h'
      refine ⟨?_, (congrArg DB.users (congrArg Prod.fst h')).symm⟩
      intro hemp
      apply hval
      rw [hemp]
      simp

/-- C8: if a `register` call succeeds and a second `register` call submits
the same email up to letter case (with otherwise valid fields), the second
call fails with the 409 ConflictError; the error result commits nothing, so
no second user row is created. -/
theorem register_duplicate_email_conflict
    (db db' : DB) (uid : Nat) (n1 e1 p1 r1 ph1 n2 e2 p2 r2 ph2 : Option String)
    (hsucc : register db n1 e1 p1 r1 ph1 = .ok (db', uid))
    (hcase : pyLower (e1.getD "") = pyLower (e2.getD ""))
    (hn2 : pyStrip (n2.getD "") ≠ "")
    (hp2 : p2.getD "" ≠ "")
    (hr2 : r2.getD "customer" = "customer" ∨ r2.getD "customer" = "owner") :
    register db' n2 e2 p2 r2 ph2 = .error ⟨409, "Email already registered"⟩ := by
  obtain ⟨hne, husers⟩ := register_ok_email db n1 e1 p1 r1 ph1 db' uid hsucc
  have hemail : pyLower (pyStrip (e2.getD "")) = pyLower (pyStrip (e1.getD "")) := by
    rw [pyLower_pyStrip, pyLower_pyStrip, hcase]
  have hne2 : pyLower (pyStrip (e2.getD "")) ≠ "" := by
    rw [hemail]
    exact hne
  have hfound : (findUserByEmail db' (pyLower (pyStrip (e2.getD "")))).isSome = true := by
    rw [hemail]
    unfold findUserByEmail
    rw [List.find?_isSome]
    exact ⟨⟨db.next_user_id, pyStrip (n1.getD ""), pyLower (pyStrip (e1.getD "")),
            generate_password_hash (p1.getD ""), r1.getD "customer", ph1⟩,
          by rw [husers]; exact List.mem_append_right _ (List.mem_singleton.mpr rfl),
          by simp⟩
  have b1 : (pyStrip (n2.getD "") == "") = false := beq_eq_false_iff_ne.mpr hn2
  have b2 : (pyLower (pyStrip (e2.getD "")) == "") = false := beq_eq_false_iff_ne.mpr hne2
  have b3 : (p2.getD "" == "") = false := beq_eq_false_iff_ne.mpr hp2
  have b4 : ((r2.getD "customer" != "customer") && (r2.getD "customer" != "owner")) = false := by
    rcases hr2 with h | h <;> simp [h]
  simp only [register, b1, b2, b3, b4, Bool.or_false, Bool.false_or,
             Bool.false_eq_true, if_false, hfound, if_true]

/-- The state after a successful first registration on the empty database. -/
def regDb1 : DB :=
  { emptyDb with
    users := [⟨1, "Ada", "ada@x.com", generate_password_hash "pw", "customer", none⟩],
    next_user_id := 2 }

/-- C8 witness: registering `Ada@X.com` on the empty database succeeds;
registering again with `aDa@x.Com` (same email up to case, valid fields)
yields the 409 conflict. -/
theorem register_duplicate_email_conflict_witness :
    register emptyDb (some "Ada") (some "Ada@X.com") (some "pw") none none =
      .ok (regDb1, 1) ∧
    pyLower ((some "Ada@X.com").getD "") = pyLower ((some "aDa@x.Com").getD "") ∧
    register regDb1 (some "Bea") (some "aDa@x.Com") (some "pw2") none none =
      .error ⟨409, "Email already registered"⟩ :=
  ⟨by decide, by decide,
   register_duplicate_email_conflict emptyDb regDb1 1
     (some "Ada") (some "Ada@X.com") (some "pw") none none
     (some "Bea") (some "aDa@x.Com") (some "pw2") none none
     (by decide) (by decide) (by decide) (by decide) (by decide)⟩
